/-
Verification development for the gpu-finder script (src/gpu-finder.py).

The script is a sequential control layer over a cloud API: it validates a
configuration, lists zones, filters them by machine-type and accelerator
capability, filters by accelerator quota, attempts to provision instances
region by region, and finally deletes the created instances.

The definitions below are a shallow embedding of the Python source.
Python dictionaries become structures, Python strings become String
(manipulated through their character lists), paginated API listings become
lists of pages supplied by an oracle, and exceptions become Except values.
Comments on each definition cite the source lines it embeds.
-/
import Mathlib

set_option autoImplicit false

namespace GpuFinder

/-! ## Python string primitives

These model the Python string operations used by the script: startswith,
find, slicing, int(), strip, the "in" substring test, and truthiness. -/

/-- Boolean prefix test on character lists, as used by Python startswith
and as the single step of substring search. -/
def isPrefixOfCL : List Char → List Char → Bool
  | [], _ => true
  | _ :: _, [] => false
  | a :: as, b :: bs => a == b && isPrefixOfCL as bs

/-- Auxiliary substring search: first index at or after i where the needle
occurs, scanning left to right. -/
def pyFindAux (needle : List Char) : List Char → Nat → Option Nat
  | [], i => if isPrefixOfCL needle [] then some i else none
  | h :: t, i => if isPrefixOfCL needle (h :: t) then some i else pyFindAux needle t (i + 1)

/-- Python str.find: index of the first occurrence of needle, -1 when absent. -/
def pyFind (needle hay : List Char) : Int :=
  match pyFindAux needle hay 0 with
  | some i => (i : Int)
  | none => -1

/-- Python substring membership test, sub in hay. -/
def pyIn (sub hay : List Char) : Bool :=
  pyFind sub hay ≠ -1

/-- Python str.startswith. -/
def pyStartsWith (pre s : List Char) : Bool :=
  isPrefixOfCL pre s

/-- Python slice s[a:b] for non-negative bounds: take b then drop a.
Both uses in the source have non-negative bounds, see check_gpu_config. -/
def pySlice (l : List Char) (a b : Nat) : List Char :=
  (l.take b).drop a

/-- Python str.strip (whitespace from both ends). -/
def pyStrip (l : List Char) : List Char :=
  ((l.dropWhile Char.isWhitespace).reverse.dropWhile Char.isWhitespace).reverse

/-- Value of a digit string, most significant first. -/
def natOfDigits (l : List Char) : Nat :=
  l.foldl (fun acc c => acc * 10 + (c.toNat - 48)) 0

/-- Python int(s) on a string: strips whitespace, accepts an optional sign
followed by at least one digit; none models the ValueError raise. -/
def pyInt (s : List Char) : Option Int :=
  match pyStrip s with
  | '-' :: ds => if ds ≠ [] ∧ ds.all Char.isDigit then some (-(natOfDigits ds : Int)) else none
  | '+' :: ds => if ds ≠ [] ∧ ds.all Char.isDigit then some ((natOfDigits ds : Int)) else none
  | ds => if ds ≠ [] ∧ ds.all Char.isDigit then some ((natOfDigits ds : Int)) else none

/-! ## Errors

One constructor per kind of exception the script can raise. -/

/-- Python exceptions raised (or raisable) by the script. -/
inductive PyErr where
  /-- Reading a missing dictionary key. -/
  | keyError (key : String)
  /-- Indexing an empty list, machine accelerators at index 0. -/
  | indexError
  /-- int() applied to a non-numeric string, line 33. -/
  | valueError
  /-- Reading a never-assigned local variable. -/
  | nameError
  /-- raise Exception(msg), lines 34, 80, 110. -/
  | exception (msg : String)
  /-- raise Exception(result error payload) from an operation poll, lines 171, 238. -/
  | opError (payload : String)
  deriving DecidableEq, Repr

/-- Decidable equality on Except results, used to evaluate the models on
concrete inputs. -/
instance instDecEqExcept {ε α : Type} [DecidableEq ε] [DecidableEq α] :
    DecidableEq (Except ε α) := fun x y =>
  match x, y with
  | .ok a, .ok b =>
    if h : a = b then isTrue (by rw [h]) else isFalse (by simp [h])
  | .error e, .error f =>
    if h : e = f then isTrue (by rw [h]) else isFalse (by simp [h])
  | .ok _, .error _ => isFalse (by simp)
  | .error _, .ok _ => isFalse (by simp)

/-! ## Configuration (section 3 of the spec, gpu-config.json) -/

/-- The instance_config sub-record of the configuration. The data model
places number_of_instances here. -/
structure InstanceConfig where
  machine_type : String
  gpu_type : String
  number_of_gpus : Int
  number_of_instances : Nat
  name : String
  /-- Zone allow-list; empty list models an empty or absent allow-list
  (falsy in the Python truthiness test of line 255). -/
  zone : List String
  /-- The optional gpu_type to machine_type override mapping of line 136,
  as an association list; [] models an absent mapping (the .get default). -/
  gpu_machine_type_mapping : List (String × String)
  deriving DecidableEq, Repr

/-- The top-level configuration record. Line 143 of the source reads
config["number_of_instances"] at the TOP level, while the data model nests
that count inside instance_config; the optional field below records whether
a top-level copy of the count is present, so both shapes are expressible. -/
structure Config where
  project_id : String
  instance_config : InstanceConfig
  number_of_instances_top : Option Nat
  deriving DecidableEq, Repr

/-! ## check_gpu_config (lines 28-34) -/

/-- Embeds check_gpu_config, lines 28-34. For a machine type starting with
"a2" it slices the characters from find("highgpu")+8 up to length-1 and
compares int() of that slice against number_of_gpus. find returns -1 when
"highgpu" is absent, making the lower bound 7; both bounds are therefore
non-negative and Int.toNat is faithful. int() failure is a ValueError. -/
def check_gpu_config (config : Config) : Except PyErr Unit :=
  let mt := config.instance_config.machine_type.data
  if pyStartsWith "a2".data mt then
    let lo : Nat := (pyFind "highgpu".data mt + 8).toNat
    let sub := pySlice mt lo (mt.length - 1)
    match pyInt sub with
    | none => .error .valueError
    | some g =>
      if config.instance_config.number_of_gpus ≠ g then
        .error (.exception "Please match the number of GPUs parameter with the correct machine type in the config file")
      else
        .ok ()
  else
    .ok ()

/-- Reference, from the naming convention the spec describes: the GPU count
embedded in a machine-type name is the run of digits just before the final
character of the name (a2-highgpu-8g embeds 8, a2-megagpu-16g embeds 16). -/
def specEmbeddedGpuCount (machine_type : String) : Option Nat :=
  match machine_type.data.reverse with
  | 'g' :: rest =>
    let digits := (rest.takeWhile Char.isDigit).reverse
    if digits ≠ [] then some (natOfDigits digits) else none
  | _ => none

/-! ## Zone discovery, get_zone_info (lines 36-49)

Paginated listings are supplied by an oracle as a list of pages, the
while request loop of the source draining them in order into one list. -/

/-- One item of a zones.list response, the fields the script reads. -/
structure ZoneItem where
  name : String
  status : String
  deriving DecidableEq, Repr

/-- Zone descriptor built at lines 43-46: region is the zone name with its
trailing 2 characters removed. -/
structure ZoneDesc where
  region : String
  zone : String
  deriving DecidableEq, Repr

/-- Region derivation of line 44: zone name sliced from 0 to length - 2. -/
def regionOfZoneName (name : String) : String :=
  String.mk (pySlice name.data 0 (name.data.length - 2))

/-- Embeds get_zone_info, lines 36-49: keep zones whose status is UP,
pairing each with its derived region, in listing order. -/
def get_zone_info (zonePages : List (List ZoneItem)) : List ZoneDesc :=
  zonePages.flatten.filterMap fun z =>
    if z.status = "UP" then
      some { region := regionOfZoneName z.name, zone := z.name }
    else
      none

/-! ## Capability filter, check_machine_type_and_accelerator (lines 51-81) -/

/-- One element of the accelerators list of a machine-type catalog entry. -/
structure MachAccel where
  guestAcceleratorType : String
  guestAcceleratorCount : Int
  deriving DecidableEq, Repr

/-- One item of a machineTypes.list response, the fields the script reads;
accelerators is optional because the source tests key presence. -/
structure MachineEntry where
  name : String
  guestCpus : Int
  description : String
  accelerators : Option (List MachAccel)
  deriving DecidableEq, Repr

/-- Capability record built at lines 60-77: accelerator details are
attached in the first branch and absent in the elif branch. -/
structure CapabilityRecord where
  machine_type : String
  region : String
  zone : String
  guest_cpus : Int
  description : String
  accelerators : Option (List MachAccel)
  deriving DecidableEq, Repr

/-- Embeds the per-entry conditional of lines 59-77, with the Python
short-circuit order: key presence, then name equality, then indexing the
accelerators list at 0 (an IndexError when that list is present but
empty), then comparing the primary accelerator type. -/
def processMachine (machine_type gpu_type : String) (z : ZoneDesc) (m : MachineEntry) :
    Except PyErr (Option CapabilityRecord) :=
  match m.accelerators with
  | some accels =>
    if m.name = machine_type then
      match accels with
      | [] => .error .indexError
      | a :: rest =>
        if a.guestAcceleratorType = gpu_type then
          .ok (some { machine_type := m.name, region := z.region, zone := z.zone,
                      guest_cpus := m.guestCpus, description := m.description,
                      accelerators := some (a :: rest) })
        else
          .ok (some { machine_type := m.name, region := z.region, zone := z.zone,
                      guest_cpus := m.guestCpus, description := m.description,
                      accelerators := none })
    else
      .ok none
  | none =>
    if m.name = machine_type then
      .ok (some { machine_type := m.name, region := z.region, zone := z.zone,
                  guest_cpus := m.guestCpus, description := m.description,
                  accelerators := none })
    else
      .ok none

/-- The for machine in items loop of lines 58-77 for one page. -/
def machineItemsLoop (machine_type gpu_type : String) (z : ZoneDesc) :
    List MachineEntry → Except PyErr (List CapabilityRecord)
  | [] => .ok []
  | m :: rest =>
    match processMachine machine_type gpu_type z m with
    | .error e => .error e
    | .ok r =>
      match machineItemsLoop machine_type gpu_type z rest with
      | .error e => .error e
      | .ok rs => .ok (r.toList ++ rs)

/-- The while request pagination loop of lines 56-78 for one zone. -/
def machinePagesLoop (machine_type gpu_type : String) (z : ZoneDesc) :
    List (List MachineEntry) → Except PyErr (List CapabilityRecord)
  | [] => .ok []
  | pg :: rest =>
    match machineItemsLoop machine_type gpu_type z pg with
    | .error e => .error e
    | .ok r =>
      match machinePagesLoop machine_type gpu_type z rest with
      | .error e => .error e
      | .ok rs => .ok (r ++ rs)

/-- The for zone in zone_list loop of lines 54-78. -/
def machineZonesLoop (machinePages : String → List (List MachineEntry))
    (machine_type gpu_type : String) :
    List ZoneDesc → Except PyErr (List CapabilityRecord)
  | [] => .ok []
  | z :: rest =>
    match machinePagesLoop machine_type gpu_type z (machinePages z.zone) with
    | .error e => .error e
    | .ok r =>
      match machineZonesLoop machinePages machine_type gpu_type rest with
      | .error e => .error e
      | .ok rs => .ok (r ++ rs)

/-- Embeds check_machine_type_and_accelerator, lines 51-81: accumulate
capability records over all zones and raise when none was found. -/
def check_machine_type_and_accelerator (machinePages : String → List (List MachineEntry))
    (machine_type gpu_type : String) (zones : List ZoneDesc) :
    Except PyErr (List CapabilityRecord) :=
  match machineZonesLoop machinePages machine_type gpu_type zones with
  | .error e => .error e
  | .ok available_zones =>
    if available_zones = [] then
      .error (.exception ("No machine types of " ++ machine_type ++ " are available"))
    else
      .ok available_zones

/-- Reference, from the words of the spec: every catalog entry whose name
equals the target machine type yields a record, with accelerator details
attached exactly when its primary (first) accelerator type matches the
requested GPU type and omitted otherwise. -/
def capabilityOfSpec (machine_type gpu_type : String) (z : ZoneDesc) (m : MachineEntry) :
    Option CapabilityRecord :=
  if m.name = machine_type then
    some { machine_type := m.name, region := z.region, zone := z.zone,
           guest_cpus := m.guestCpus, description := m.description,
           accelerators :=
             match m.accelerators with
             | some (a :: rest) =>
               if a.guestAcceleratorType = gpu_type then some (a :: rest) else none
             | _ => none }
  else
    none

/-- Reference capability-filter output: all matching entries over all
zones and pages, in traversal order. -/
def capabilitySpec (machinePages : String → List (List MachineEntry))
    (machine_type gpu_type : String) (zones : List ZoneDesc) : List CapabilityRecord :=
  zones.flatMap fun z =>
    (machinePages z.zone).flatten.filterMap (capabilityOfSpec machine_type gpu_type z)

/-! ## Quota filter, get_accelerator_quota (lines 83-111) -/

/-- One item of an acceleratorTypes.list response, the fields the script
reads. -/
structure AccelTypeEntry where
  name : String
  description : String
  maximumCardsPerInstance : Int
  deriving DecidableEq, Repr

/-- Quota record built at lines 94-102. -/
structure QuotaRecord where
  region : String
  zone : String
  machine_type : String
  guest_cpus : Int
  name : String
  description : String
  maxGpusPerInstance : Int
  deriving DecidableEq, Repr

/-- Embeds the per-accelerator conditional of lines 92-107: a record is
produced exactly when the name matches the configured GPU type and the
requested count is at most the maximum per instance (the else branch only
prints). -/
def processAccelerator (gpu_type : String) (requested_gpus : Int) (i : CapabilityRecord)
    (a : AccelTypeEntry) : Option QuotaRecord :=
  if a.name = gpu_type then
    if requested_gpus ≤ a.maximumCardsPerInstance then
      some { region := i.region, zone := i.zone, machine_type := i.machine_type,
             guest_cpus := i.guest_cpus, name := a.name, description := a.description,
             maxGpusPerInstance := a.maximumCardsPerInstance }
    else
      none
  else
    none

/-- The for accelerator in items loop of lines 91-107 for one page. A page
without an items key is modelled as an empty page, which the if guard of
line 90 makes equivalent. -/
def acceleratorItemsLoop (gpu_type : String) (requested_gpus : Int) (i : CapabilityRecord) :
    List AccelTypeEntry → List QuotaRecord
  | [] => []
  | a :: rest =>
    (processAccelerator gpu_type requested_gpus i a).toList ++
      acceleratorItemsLoop gpu_type requested_gpus i rest

/-- The while request pagination loop of lines 88-108 for one record. -/
def acceleratorPagesLoop (gpu_type : String) (requested_gpus : Int) (i : CapabilityRecord) :
    List (List AccelTypeEntry) → List QuotaRecord
  | [] => []
  | pg :: rest =>
    acceleratorItemsLoop gpu_type requested_gpus i pg ++
      acceleratorPagesLoop gpu_type requested_gpus i rest

/-- The for i in zone_list loop of lines 86-108. -/
def acceleratorZonesLoop (accelPages : String → List (List AccelTypeEntry))
    (gpu_type : String) (requested_gpus : Int) :
    List CapabilityRecord → List QuotaRecord
  | [] => []
  | i :: rest =>
    acceleratorPagesLoop gpu_type requested_gpus i (accelPages i.zone) ++
      acceleratorZonesLoop accelPages gpu_type requested_gpus rest

/-- Embeds get_accelerator_quota, lines 83-111: accumulate quota records
over all capability records and raise when none qualifies. The gpu_type
compared at line 92 is read from the configuration. -/
def get_accelerator_quota (config : Config) (accelPages : String → List (List AccelTypeEntry))
    (zone : List CapabilityRecord) (requested_gpus : Int) :
    Except PyErr (List QuotaRecord) :=
  let accelerator_list :=
    acceleratorZonesLoop accelPages config.instance_config.gpu_type requested_gpus zone
  if accelerator_list = [] then
    .error (.exception ("No accelerator types of " ++ config.instance_config.gpu_type ++
      " are available with " ++ config.instance_config.machine_type ++
      " in any zone, or wrong number of GPUs requested"))
  else
    .ok accelerator_list

/-- Reference quota-filter output, from the words of the spec: a zone
accelerator is included exactly when its name matches the configured type
and requested_gpus is at most maximumCardsPerInstance. -/
def quotaSpec (accelPages : String → List (List AccelTypeEntry)) (gpu_type : String)
    (requested_gpus : Int) (records : List CapabilityRecord) : List QuotaRecord :=
  records.flatMap fun i =>
    (accelPages i.zone).flatten.filterMap (processAccelerator gpu_type requested_gpus i)

/-! ## Provisioning loop, create_instance (lines 114-212)

Indentation facts of the source that shape this model:
- lines 129-130 are a loop whose whole body is the assignment
  zone_config = zones[i], so after it zone_config is the LAST zone of the
  region (or the value left over from a previous region when the region
  has no zones, a NameError on first use when there is none);
- lines 133-141 sit at region level and run once per region;
- line 143 reads config["number_of_instances"] at the TOP level of the
  configuration, a KeyError when the count only exists inside
  instance_config as the data model prescribes;
- inside the for j loop, lines 152-201 are indented inside the
  invalid-name branch of line 148 AFTER its continue statement, so the
  insert request, the operation poll, the HTTP error handler, the counter
  increment and the zones_attempted update are all unreachable; the live
  loop body only builds the candidate name and tests it. -/

/-- Created-instance record of lines 177-180. -/
structure CreatedInstance where
  name : String
  zone : String
  deriving DecidableEq, Repr

/-- Embeds lines 133-141: the machine type the region iteration writes
back into the configuration. The Python truthiness test of line 137 makes
a present-but-empty mapping value fall back to the configured default;
the else branch assigns the field to itself. -/
def resolveMachineType (ic : InstanceConfig) : String :=
  match ic.gpu_machine_type_mapping.lookup ic.gpu_type with
  | some mt => if mt ≠ "" then mt else ic.machine_type
  | none => ic.machine_type

/-- Embeds the for j in range(...) loop of lines 143-201. The body builds
instance_name (line 147) and tests it for emptiness (line 148); both the
skip branch (continue) and the valid-name path reach the end of the body
with no state change, because everything from line 152 on follows the
continue inside the invalid-name branch and is unreachable. Reading
zone_config when it was never assigned is a NameError. -/
def jLoop (cfg : Config) (instances : Nat) (zc : Option QuotaRecord) :
    Nat → Except PyErr Unit
  | 0 => .ok ()
  | k + 1 =>
    match zc with
    | none => .error .nameError
    | some z =>
      let instance_name :=
        cfg.instance_config.name ++ "-" ++ toString (instances + 1) ++ "-" ++ z.zone
      if instance_name = "" ∨ String.mk (pyStrip instance_name.data) = "" then
        jLoop cfg instances zc k
      else
        jLoop cfg instances zc k

/-- Auxiliary of distinctFirst: keep elements not seen before. -/
def distinctFirstAux (seen : List String) : List String → List String
  | [] => []
  | a :: rest =>
    if seen.contains a then
      distinctFirstAux seen rest
    else
      a :: distinctFirstAux (a :: seen) rest

/-- Models list(set(...)) of line 116: the distinct regions. Python set
iteration order is unspecified; first-occurrence order is chosen here, and
every fact proved below about the loop is independent of that choice. -/
def distinctFirst (l : List String) : List String :=
  distinctFirstAux [] l

/-- Embeds the for region in regions_to_try loop of lines 122-208,
threading the created list, the instance and region counters, the aliased
configuration, the trace of regions attempted (line 123) and the
zone_config variable. On each region: record the attempt, filter the
zones, run the zone_config assignment loop, resolve and write back the
machine type, read the top-level instance count, run the j loop, then the
region-level exit checks of lines 204-208. -/
def createLoop (zone_list : List QuotaRecord) (total : Nat) :
    List String → Config → Nat → Nat → List CreatedInstance → List String →
    Option QuotaRecord → Except PyErr (List CreatedInstance × Config × List String)
  | [], cfg, _instances, _regions_attempted, created, trace, _zc =>
    .ok (created, cfg, trace)
  | region :: rest, cfg, instances, regions_attempted, created, trace, zcPrev =>
    let trace := trace ++ [region]
    let zones := zone_list.filter (fun z => z.region == region)
    let zone_config := match zones.getLast? with
      | some z => some z
      | none => zcPrev
    let cfg := { cfg with instance_config :=
      { cfg.instance_config with machine_type := resolveMachineType cfg.instance_config } }
    match cfg.number_of_instances_top with
    | none => .error (.keyError "number_of_instances")
    | some n =>
      match jLoop cfg instances zone_config n with
      | .error e => .error e
      | .ok _ =>
        let regions_attempted := regions_attempted + 1
        if n ≤ instances then
          .ok (created, cfg, trace)
        else if total ≤ regions_attempted then
          .ok (created, cfg, trace)
        else
          createLoop zone_list total rest cfg instances regions_attempted created trace
            zone_config

/-- Embeds create_instance, lines 114-212. Returns the created-instance
list, the configuration object after the in-place mutation of lines
138-141, and the trace of regions attempted. -/
def create_instance (cfg : Config) (zone_list : List QuotaRecord) :
    Except PyErr (List CreatedInstance × Config × List String) :=
  let regions_to_try := distinctFirst (zone_list.map (fun v => v.region))
  createLoop zone_list regions_to_try.length regions_to_try cfg 0 0 [] [] none

/-! ## HTTP error handling (lines 185-193)

The except clause of the insert attempt. It lies in the unreachable part
of the loop body, but its dispatch logic is embedded from the source text:
status 403 with "Quota exceeded" in the message sets move_regions and
breaks (abandon the region), status 403 without that message falls
through the handler so the error is swallowed and execution continues,
and only a non-403 status reaches the else that re-raises. -/

/-- Outcome of the except googleapiclient.errors.HttpError handler. -/
inductive HttpErrAction where
  /-- move_regions = 1 and break, lines 189-191. -/
  | moveRegion
  /-- No branch taken: the error is caught and ignored. -/
  | swallow
  /-- raise e, line 193. -/
  | reraise
  deriving DecidableEq, Repr

/-- Embeds the dispatch of lines 185-193 on the error status and message. -/
def http_error_action (status : Nat) (message : String) : HttpErrAction :=
  if status = 403 then
    if pyIn "Quota exceeded".data message.data then
      .moveRegion
    else
      .swallow
  else
    .reraise

/-! ## Teardown, delete_instance (lines 214-239)

The poll loop of lines 229-239 repeats until the operation status is
DONE, then raises when the result carries an error field. The oracle
below gives each delete operation its final DONE result: some payload for
a DONE with an error field, none for a clean DONE. A run in which some
operation never reaches DONE never terminates and is outside the model. -/

/-- Embeds delete_instance, lines 214-239: issue one delete per record in
list order, returning the (zone, name) requests actually issued and the
final outcome; the first operation error stops the iteration. -/
def delete_instance (deleteOp : String → String → Option String) :
    List CreatedInstance → List (String × String) × Except PyErr Unit
  | [] => ([], .ok ())
  | inst :: rest =>
    match deleteOp inst.zone inst.name with
    | some payload => ([(inst.zone, inst.name)], .error (.opError payload))
    | none =>
      let r := delete_instance deleteOp rest
      ((inst.zone, inst.name) :: r.1, r.2)

/-- Index of the first record whose delete operation reports an error. -/
def firstFailIdx (deleteOp : String → String → Option String) :
    List CreatedInstance → Option Nat
  | [] => none
  | inst :: rest =>
    if (deleteOp inst.zone inst.name).isSome then
      some 0
    else
      (firstFailIdx deleteOp rest).map (fun k => k + 1)

/-! ## Entry routine, main (lines 253-275) -/

/-- Observable interactions of one run: the API requests the script
issues. Consecutive pages of one paginated listing count as one logical
listing request. -/
inductive Event where
  | zonesList
  | machineTypesList (zone : String)
  | acceleratorTypesList (zone : String)
  | deleteCall (zone : String) (name : String)
  deriving DecidableEq, Repr

/-- Oracle for every external API response a run can consume. The
instances.insert endpoint needs no oracle because the request of line 154
is unreachable. -/
structure Api where
  zonePages : List (List ZoneItem)
  machinePages : String → List (List MachineEntry)
  accelPages : String → List (List AccelTypeEntry)
  deleteOp : String → String → Option String

/-- Embeds main, lines 253-275: list zones (optionally filtered to the
configured allow-list), validate the GPU configuration, run the
capability filter, the quota filter, the provisioning loop and the
teardown. Returns the event trace and the final outcome. The listing
events of the capability and quota phases are attached when their phase
runs; the interactive wait of lines 270-272 exchanges no data and is not
modelled. -/
def mainRun (api : Api) (cfg : Config) : List Event × Except PyErr Unit :=
  let zone_info := get_zone_info api.zonePages
  let tr0 := [Event.zonesList]
  let compute_zones :=
    if cfg.instance_config.zone ≠ [] then
      zone_info.filter (fun z => cfg.instance_config.zone.contains z.zone)
    else
      zone_info
  match check_gpu_config cfg with
  | .error e => (tr0, .error e)
  | .ok _ =>
    let tr1 := tr0 ++ compute_zones.map (fun z => Event.machineTypesList z.zone)
    match check_machine_type_and_accelerator api.machinePages
        cfg.instance_config.machine_type cfg.instance_config.gpu_type compute_zones with
    | .error e => (tr1, .error e)
    | .ok available_zones =>
      let tr2 := tr1 ++ available_zones.map (fun z => Event.acceleratorTypesList z.zone)
      match get_accelerator_quota cfg api.accelPages available_zones
          cfg.instance_config.number_of_gpus with
      | .error e => (tr2, .error e)
      | .ok accelerators =>
        let available_regions := distinctFirst (available_zones.map (fun v => v.region))
        if available_regions ≠ [] then
          match create_instance cfg accelerators with
          | .error e => (tr2, .error e)
          | .ok (instance_details, _, _) =>
            let d := delete_instance api.deleteOp instance_details
            (tr2 ++ d.1.map (fun c => Event.deleteCall c.1 c.2), d.2)
        else
          (tr2, .ok ())

/-! ## Concrete fixtures used by the theorems below -/

/-- Instance configuration of the round-trip scenario: 2 instances of an
a2-highgpu-2g machine requested, name prefix gpu. -/
def icRoundTrip : InstanceConfig :=
  { machine_type := "a2-highgpu-2g", gpu_type := "nvidia-tesla-a100", number_of_gpus := 2,
    number_of_instances := 2, name := "gpu", zone := [], gpu_machine_type_mapping := [] }

/-- Round-trip configuration shaped as the data model describes: the
instance count nested in instance_config only. -/
def cfgRoundTrip : Config :=
  { project_id := "p", instance_config := icRoundTrip, number_of_instances_top := none }

/-- Round-trip configuration with a top-level copy of the count, the shape
line 143 actually reads. -/
def cfgRoundTripTop : Config :=
  { cfgRoundTrip with number_of_instances_top := some 2 }

/-- The single zone with sufficient quota of the round-trip scenario. -/
def zlRoundTrip : List QuotaRecord :=
  [{ region := "us-central1", zone := "us-central1-a", machine_type := "a2-highgpu-2g",
     guest_cpus := 24, name := "nvidia-tesla-a100", description := "A100",
     maxGpusPerInstance := 16 }]

/-- Configuration of the quota scenario of the spec: target of 3
instances, read from the top level so the loop can run. -/
def cfgQuotaScenario : Config :=
  { cfgRoundTrip with number_of_instances_top := some 3 }

/-- Two candidate regions with one zone each, the quota scenario layout. -/
def zlQuotaScenario : List QuotaRecord :=
  [{ region := "r1", zone := "r1-a", machine_type := "a2-highgpu-2g", guest_cpus := 24,
     name := "nvidia-tesla-a100", description := "A100", maxGpusPerInstance := 16 },
   { region := "r2", zone := "r2-a", machine_type := "a2-highgpu-2g", guest_cpus := 24,
     name := "nvidia-tesla-a100", description := "A100", maxGpusPerInstance := 16 }]

/-- An a2-family configuration whose machine type encodes 16 GPUs and
whose number_of_gpus is the matching 16. -/
def cfgMega16 : Config :=
  { project_id := "p",
    instance_config := { icRoundTrip with machine_type := "a2-megagpu-16g",
                                          number_of_gpus := 16 },
    number_of_instances_top := none }

/-- An a2-highgpu configuration with a mismatched GPU count: machine type
encodes 8, number_of_gpus is 4. -/
def cfgMismatch : Config :=
  { project_id := "p",
    instance_config := { icRoundTrip with machine_type := "a2-highgpu-8g",
                                          number_of_gpus := 4 },
    number_of_instances_top := none }

/-- An a2-highgpu configuration with a matching GPU count of 8. -/
def cfgMatch8 : Config :=
  { project_id := "p",
    instance_config := { icRoundTrip with machine_type := "a2-highgpu-8g",
                                          number_of_gpus := 8 },
    number_of_instances_top := none }

/-- A minimal API oracle: one zone page with one UP zone, empty catalog
pages, clean delete operations. -/
def apiProbe : Api :=
  { zonePages := [[{ name := "us-central1-a", status := "UP" }]],
    machinePages := fun _ => [[]],
    accelPages := fun _ => [[]],
    deleteOp := fun _ _ => none }

/-- Configuration with a machine-type override mapping for its GPU type,
used to observe the mutation the provisioning loop performs. -/
def cfgMapped : Config :=
  { project_id := "p",
    instance_config := { icRoundTrip with
      gpu_machine_type_mapping := [("nvidia-tesla-a100", "a2-megagpu-16g")] },
    number_of_instances_top := some 1 }

/-- Two created-instance records for exercising teardown. -/
def instsTeardown : List CreatedInstance :=
  [{ name := "gpu-1-us-central1-a", zone := "us-central1-a" },
   { name := "gpu-2-us-central1-a", zone := "us-central1-a" }]

/-- Delete-operation oracle whose first operation reports an error. -/
def deleteOpFailFirst : String → String → Option String :=
  fun _ name => if name = "gpu-1-us-central1-a" then some "resource busy" else none

/-- Single zone descriptor for exercising the capability filter. -/
def zonesProbe : List ZoneDesc :=
  [{ region := "us-central1", zone := "us-central1-a" }]

/-- Machine-type catalog for the capability filter probe: one page with a
matching entry whose primary accelerator matches, a matching entry with a
different primary accelerator, and a non-matching entry. -/
def machinePagesProbe : String → List (List MachineEntry) :=
  fun _ =>
    [[{ name := "a2-highgpu-2g", guestCpus := 24, description := "2 a100",
        accelerators := some [{ guestAcceleratorType := "nvidia-tesla-a100",
                                guestAcceleratorCount := 2 }] },
      { name := "a2-highgpu-2g", guestCpus := 24, description := "2 other",
        accelerators := some [{ guestAcceleratorType := "nvidia-tesla-k80",
                                guestAcceleratorCount := 2 }] },
      { name := "n1-standard-8", guestCpus := 8, description := "plain",
        accelerators := none }]]

/-- Configuration whose mapping sends the configured GPU type to the
empty string, with a top-level count so the provisioning loop can run:
the Python truthiness test of line 137 treats the empty mapped value as
falsy and keeps the default machine type. -/
def cfgEmptyMapped : Config :=
  { project_id := "p",
    instance_config := { icRoundTrip with
      gpu_machine_type_mapping := [("nvidia-tesla-a100", "")] },
    number_of_instances_top := some 1 }

/-- The configuration update the provisioning loop performs in place:
only the machine_type field of instance_config is replaced. -/
def patchMachineType (cfg : Config) (mt : String) : Config :=
  { cfg with instance_config := { cfg.instance_config with machine_type := mt } }

end GpuFinder

namespace GpuFinder

/-! ## Theorems -/

/-- Helper: distinct regions of a nonempty list start with its head. -/
theorem distinctFirst_cons (a : String) (l : List String) :
    distinctFirst (a :: l) = a :: distinctFirstAux [a] l := rfl

/-- Helper: with the instance count absent at the top level of the
configuration, the first region iteration stops at the KeyError of
line 143. -/
theorem createLoop_cons_keyError (zl : List QuotaRecord) (total : Nat) (r : String)
    (R : List String) (cfg : Config) (i ra : Nat) (cr : List CreatedInstance)
    (tr : List String) (zc : Option QuotaRecord)
    (htop : cfg.number_of_instances_top = none) :
    createLoop zl total (r :: R) cfg i ra cr tr zc =
      .error (.keyError "number_of_instances") := by
  simp only [createLoop, htop]

/-- C1: the round-trip claim fails on the code. With the configuration
shaped as the data model describes, the provisioning loop raises a
KeyError on the top-level number_of_instances read of line 143 before any
creation attempt; with a top-level count of 2 added, the loop still
returns zero created-instance records (the creation logic of lines
152-201 follows the continue of line 150 and is unreachable), so teardown
receives an empty list and issues no delete, instead of the two records
gpu-1-us-central1-a and gpu-2-us-central1-a the claim requires. -/
theorem c1_round_trip_code_bug :
    create_instance cfgRoundTrip zlRoundTrip = .error (.keyError "number_of_instances") ∧
    create_instance cfgRoundTripTop zlRoundTrip = .ok ([], cfgRoundTripTop, ["us-central1"]) ∧
    delete_instance (fun _ _ => none) [] = ([], .ok ()) := by
  decide

/-- C3: the stop-at-target claim rests on a counter the code can never
advance. In the quota scenario of the spec (two candidate regions, target
of 3), the loop attempts both regions and records zero instances, because
the insert, the counter increment and both early-exit checks of lines
195-200 follow the continue of line 150 and are unreachable; the spec
expects one recorded instance in the first region. -/
theorem c3_stop_at_target_code_bug :
    create_instance cfgQuotaScenario zlQuotaScenario =
      .ok ([], cfgQuotaScenario, ["r1", "r2"]) := by
  decide

/-- C2 counterexample: an HTTP 403 whose message does not contain
"Quota exceeded" is neither a region move nor a re-raise; the handler of
lines 185-193 swallows it, while the claim requires every HTTP error
other than a quota-exceeded 403 to be re-raised. -/
theorem c2_http_dispatch_counterexample :
    http_error_action 403 "Access Not Configured" = HttpErrAction.swallow ∧
    HttpErrAction.swallow ≠ HttpErrAction.reraise := by
  decide

/-- C2 amended: a 403 whose message contains "Quota exceeded" abandons
the region; a 403 without that message is caught and ignored, so the loop
continues; only a non-403 HTTP error is re-raised to the caller. -/
theorem c2_http_dispatch_amended (status : Nat) (message : String) :
    (status = 403 ∧ pyIn "Quota exceeded".data message.data = true →
      http_error_action status message = HttpErrAction.moveRegion) ∧
    (status = 403 ∧ pyIn "Quota exceeded".data message.data = false →
      http_error_action status message = HttpErrAction.swallow) ∧
    (status ≠ 403 → http_error_action status message = HttpErrAction.reraise) := by
  refine ⟨?_, ?_, ?_⟩
  · rintro ⟨h1, h2⟩
    simp [http_error_action, h1, h2]
  · rintro ⟨h1, h2⟩
    simp [http_error_action, h1, h2]
  · intro h
    simp [http_error_action, h]

/-- C2 witness: a non-403 HTTP error (status 500) is re-raised. -/
theorem c2_http_dispatch_witness :
    http_error_action 500 "Internal error" = HttpErrAction.reraise :=
  (c2_http_dispatch_amended 500 "Internal error").2.2 (by decide)

/-- Helper: a teardown run in which every delete operation finishes
cleanly issues exactly one delete per record, in list order. -/
theorem delete_instance_all_ok (deleteOp : String → String → Option String)
    (insts : List CreatedInstance) (h : firstFailIdx deleteOp insts = none) :
    delete_instance deleteOp insts =
      (insts.map (fun i => (i.zone, i.name)), .ok ()) := by
  induction insts with
  | nil => simp [delete_instance]
  | cons i rest ih =>
    by_cases hop : (deleteOp i.zone i.name).isSome
    · simp [firstFailIdx, hop] at h
    · rw [Option.not_isSome_iff_eq_none] at hop
      simp [firstFailIdx, hop] at h
      simp [delete_instance, hop, ih h]

/-- Helper: a teardown run stops at the first operation-reported error,
having issued deletes exactly for the records up to and including it. -/
theorem delete_instance_stops_at_first_error (deleteOp : String → String → Option String)
    (insts : List CreatedInstance) (k : Nat) (h : firstFailIdx deleteOp insts = some k) :
    (delete_instance deleteOp insts).1 =
      (insts.take (k + 1)).map (fun i => (i.zone, i.name)) ∧
    ∃ e, (delete_instance deleteOp insts).2 = .error (.opError e) := by
  induction insts generalizing k with
  | nil => simp [firstFailIdx] at h
  | cons i rest ih =>
    by_cases hop : (deleteOp i.zone i.name).isSome
    · obtain ⟨payload, hp⟩ := Option.isSome_iff_exists.mp hop
      simp [firstFailIdx, hop] at h
      subst h
      simp [delete_instance, hp]
    · rw [Option.not_isSome_iff_eq_none] at hop
      simp [firstFailIdx, hop] at h
      obtain ⟨k0, hk0, hkk⟩ := h
      subst hkk
      obtain ⟨h1, e, h2⟩ := ih k0 hk0
      refine ⟨?_, e, ?_⟩
      · simp [delete_instance, hop, h1]
      · simp [delete_instance, hop, h2]

/-- C5: teardown issues exactly one delete request per created-instance
record, in list order, and when some delete operation reports an error the
iteration raises there, having issued deletes only for the records up to
and including the failing one. -/
theorem c5_teardown_order (deleteOp : String → String → Option String)
    (insts : List CreatedInstance) :
    (firstFailIdx deleteOp insts = none →
      delete_instance deleteOp insts =
        (insts.map (fun i => (i.zone, i.name)), .ok ())) ∧
    (∀ k, firstFailIdx deleteOp insts = some k →
      (delete_instance deleteOp insts).1 =
        (insts.take (k + 1)).map (fun i => (i.zone, i.name)) ∧
      ∃ e, (delete_instance deleteOp insts).2 = .error (.opError e)) :=
  ⟨delete_instance_all_ok deleteOp insts,
   fun k => delete_instance_stops_at_first_error deleteOp insts k⟩

/-- C5 witness: with two records whose first delete operation reports an
error, exactly the first delete is issued and the run raises. -/
theorem c5_teardown_order_witness :
    (delete_instance deleteOpFailFirst instsTeardown).1 =
      (instsTeardown.take 1).map (fun i => (i.zone, i.name)) ∧
    ∃ e, (delete_instance deleteOpFailFirst instsTeardown).2 =
      .error (.opError e) :=
  (c5_teardown_order deleteOpFailFirst instsTeardown).2 0 (by decide)

/-- Helper: the accelerator item loop is the filterMap of the
per-accelerator conditional. -/
theorem acceleratorItemsLoop_eq (gpu_type : String) (requested_gpus : Int)
    (i : CapabilityRecord) (items : List AccelTypeEntry) :
    acceleratorItemsLoop gpu_type requested_gpus i items =
      items.filterMap (processAccelerator gpu_type requested_gpus i) := by
  induction items with
  | nil => simp [acceleratorItemsLoop]
  | cons a rest ih =>
    rw [acceleratorItemsLoop, ih, List.filterMap_cons]
    cases h : processAccelerator gpu_type requested_gpus i a <;> simp [h]

/-- Helper: the accelerator pagination loop drains all pages in order. -/
theorem acceleratorPagesLoop_eq (gpu_type : String) (requested_gpus : Int)
    (i : CapabilityRecord) (pages : List (List AccelTypeEntry)) :
    acceleratorPagesLoop gpu_type requested_gpus i pages =
      pages.flatten.filterMap (processAccelerator gpu_type requested_gpus i) := by
  induction pages with
  | nil => simp [acceleratorPagesLoop]
  | cons pg rest ih =>
    rw [acceleratorPagesLoop, ih, acceleratorItemsLoop_eq]
    simp [List.filterMap_append]

/-- Helper: the accelerator zone loop computes the declarative quota
filter output. -/
theorem acceleratorZonesLoop_eq (accelPages : String → List (List AccelTypeEntry))
    (gpu_type : String) (requested_gpus : Int) (records : List CapabilityRecord) :
    acceleratorZonesLoop accelPages gpu_type requested_gpus records =
      quotaSpec accelPages gpu_type requested_gpus records := by
  induction records with
  | nil => simp [acceleratorZonesLoop, quotaSpec]
  | cons i rest ih =>
    rw [acceleratorZonesLoop, ih, acceleratorPagesLoop_eq]
    simp [quotaSpec]

/-- C7: for every capability record and accelerator catalog entry whose
name equals the configured GPU type, the quota filter produces a record
exactly when requested_gpus is at most maximumCardsPerInstance (that is,
its output is the declarative quotaSpec filter), and it raises the
no-accelerator-available error exactly when zero zones qualify. -/
theorem c7_quota_filter (config : Config)
    (accelPages : String → List (List AccelTypeEntry))
    (zone : List CapabilityRecord) (requested_gpus : Int) :
    get_accelerator_quota config accelPages zone requested_gpus =
      if quotaSpec accelPages config.instance_config.gpu_type requested_gpus zone = [] then
        .error (.exception ("No accelerator types of " ++ config.instance_config.gpu_type ++
          " are available with " ++ config.instance_config.machine_type ++
          " in any zone, or wrong number of GPUs requested"))
      else
        .ok (quotaSpec accelPages config.instance_config.gpu_type requested_gpus zone) := by
  simp only [get_accelerator_quota, acceleratorZonesLoop_eq]

/-- Helper: the per-entry conditional of the capability filter agrees
with its declarative description whenever the entry does not carry a
present-but-empty accelerators list. -/
theorem processMachine_ok (machine_type gpu_type : String) (z : ZoneDesc)
    (m : MachineEntry) (h : m.accelerators ≠ some []) :
    processMachine machine_type gpu_type z m =
      .ok (capabilityOfSpec machine_type gpu_type z m) := by
  unfold processMachine capabilityOfSpec
  cases hacc : m.accelerators with
  | none => by_cases hn : m.name = machine_type <;> simp [hn]
  | some l =>
    cases l with
    | nil => exact absurd hacc h
    | cons a rest =>
      by_cases hn : m.name = machine_type
      · by_cases hp : a.guestAcceleratorType = gpu_type <;> simp [hn, hp]
      · simp [hn]

/-- Helper: the machine item loop succeeds with the filterMap of the
declarative per-entry conditional on a well-formed page. -/
theorem machineItemsLoop_ok (machine_type gpu_type : String) (z : ZoneDesc)
    (items : List MachineEntry) (h : ∀ m ∈ items, m.accelerators ≠ some []) :
    machineItemsLoop machine_type gpu_type z items =
      .ok (items.filterMap (capabilityOfSpec machine_type gpu_type z)) := by
  induction items with
  | nil => simp [machineItemsLoop]
  | cons m rest ih =>
    rw [machineItemsLoop, processMachine_ok machine_type gpu_type z m (h m (by simp)),
      ih (fun m hm => h m (by simp [hm])), List.filterMap_cons]
    cases hc : capabilityOfSpec machine_type gpu_type z m <;> simp [hc]

/-- Helper: the machine pagination loop drains all well-formed pages. -/
theorem machinePagesLoop_ok (machine_type gpu_type : String) (z : ZoneDesc)
    (pages : List (List MachineEntry))
    (h : ∀ pg ∈ pages, ∀ m ∈ pg, m.accelerators ≠ some []) :
    machinePagesLoop machine_type gpu_type z pages =
      .ok (pages.flatten.filterMap (capabilityOfSpec machine_type gpu_type z)) := by
  induction pages with
  | nil => simp [machinePagesLoop]
  | cons pg rest ih =>
    rw [machinePagesLoop, machineItemsLoop_ok machine_type gpu_type z pg (h pg (by simp)),
      ih (fun p hp => h p (by simp [hp]))]
    simp [List.filterMap_append]

/-- Helper: the machine zone loop computes the declarative capability
filter output on well-formed catalogs. -/
theorem machineZonesLoop_ok (machinePages : String → List (List MachineEntry))
    (machine_type gpu_type : String) (zones : List ZoneDesc)
    (h : ∀ z ∈ zones, ∀ pg ∈ machinePages z.zone, ∀ m ∈ pg, m.accelerators ≠ some []) :
    machineZonesLoop machinePages machine_type gpu_type zones =
      .ok (capabilitySpec machinePages machine_type gpu_type zones) := by
  induction zones with
  | nil => simp [machineZonesLoop, capabilitySpec]
  | cons z rest ih =>
    rw [machineZonesLoop, machinePagesLoop_ok machine_type gpu_type z (machinePages z.zone)
      (h z (by simp)), ih (fun z0 hz0 => h z0 (by simp [hz0]))]
    simp [capabilitySpec]

/-- C6: on catalogs without a present-but-empty accelerators list (the
shape the API serves), the capability filter includes one record per
catalog entry whose name equals the target machine type, attaching
accelerator details exactly when the primary accelerator type matches the
requested GPU type (the declarative capabilitySpec), and raises the
no-matching-machine-type error exactly when no zone yields a match. -/
theorem c6_capability_filter (machinePages : String → List (List MachineEntry))
    (machine_type gpu_type : String) (zones : List ZoneDesc)
    (hWF : ∀ z ∈ zones, ∀ pg ∈ machinePages z.zone, ∀ m ∈ pg,
      m.accelerators ≠ some []) :
    check_machine_type_and_accelerator machinePages machine_type gpu_type zones =
      if capabilitySpec machinePages machine_type gpu_type zones = [] then
        .error (.exception ("No machine types of " ++ machine_type ++ " are available"))
      else
        .ok (capabilitySpec machinePages machine_type gpu_type zones) := by
  rw [check_machine_type_and_accelerator,
    machineZonesLoop_ok machinePages machine_type gpu_type zones hWF]

/-- C6 witness: on a concrete catalog with a matching entry carrying the
requested accelerator, a matching entry carrying another accelerator and
a non-matching entry, the filter returns the first two records, the first
with accelerator details and the second without. -/
theorem c6_capability_filter_witness :
    check_machine_type_and_accelerator machinePagesProbe "a2-highgpu-2g"
        "nvidia-tesla-a100" zonesProbe =
      .ok [{ machine_type := "a2-highgpu-2g", region := "us-central1",
             zone := "us-central1-a", guest_cpus := 24, description := "2 a100",
             accelerators := some [{ guestAcceleratorType := "nvidia-tesla-a100",
                                     guestAcceleratorCount := 2 }] },
           { machine_type := "a2-highgpu-2g", region := "us-central1",
             zone := "us-central1-a", guest_cpus := 24, description := "2 other",
             accelerators := none }] :=
  (c6_capability_filter machinePagesProbe "a2-highgpu-2g" "nvidia-tesla-a100"
    zonesProbe (by decide)).trans (by decide)

/-- C9: for every configuration shaped as the data model describes (the
instance count nested inside instance_config and absent at the top
level), the provisioning loop fails with a KeyError on the top-level
number_of_instances read of line 143 as soon as it enters its first
region, before any instance-creation attempt completes. The nonempty
zone list hypothesis matches the call site: main passes the quota-filter
output, which is nonempty by construction. -/
theorem c9_top_level_count_keyerror (cfg : Config) (zone_list : List QuotaRecord)
    (htop : cfg.number_of_instances_top = none) (hzl : zone_list ≠ []) :
    create_instance cfg zone_list = .error (.keyError "number_of_instances") := by
  obtain ⟨q, rest, rfl⟩ : ∃ q rest, zone_list = q :: rest := by
    cases zone_list with
    | nil => exact absurd rfl hzl
    | cons q rest => exact ⟨q, rest, rfl⟩
  simp only [create_instance, List.map_cons, distinctFirst_cons]
  exact createLoop_cons_keyError _ _ _ _ _ _ _ _ _ _ htop

/-- C9 witness: the round-trip configuration, shaped as the data model
describes, makes the provisioning loop raise the KeyError. -/
theorem c9_top_level_count_keyerror_witness :
    create_instance cfgRoundTrip zlRoundTrip =
      .error (.keyError "number_of_instances") :=
  c9_top_level_count_keyerror cfgRoundTrip zlRoundTrip rfl (by decide)

/-- C8 counterexample: on a configuration violating the GPU-count
invariant, the run is NOT rejected before any cloud API call: the trace
at the moment of rejection already contains the zones.list request,
because main lists zones (lines 255-261) before calling check_gpu_config
(line 262). -/
theorem c8_validation_order_counterexample :
    mainRun apiProbe cfgMismatch =
      ([Event.zonesList], .error (.exception "Please match the number of GPUs parameter with the correct machine type in the config file")) ∧
    [Event.zonesList] ≠ ([] : List Event) := by
  decide

/-- C8 amended: a configuration violating the GPU-count invariant is
rejected after exactly one API request, the zones.list issued by zone
discovery; validation still precedes the machine-type listing, the
accelerator listing and every instance operation. -/
theorem c8_validation_order_amended (api : Api) (cfg : Config) (e : PyErr)
    (h : check_gpu_config cfg = .error e) :
    mainRun api cfg = ([Event.zonesList], .error e) := by
  simp only [mainRun, h]

/-- C8 witness: the mismatched configuration is rejected with the
configuration error right after zone listing. -/
theorem c8_validation_order_witness :
    mainRun apiProbe cfgMismatch =
      ([Event.zonesList], .error (.exception "Please match the number of GPUs parameter with the correct machine type in the config file")) :=
  c8_validation_order_amended apiProbe cfgMismatch _ (by decide)

/-- Helper: when the mapping has a truthy entry for the configured GPU
type, the machine-type resolution of lines 133-141 picks it. -/
theorem resolveMachineType_lookup (ic : InstanceConfig) (mt : String)
    (h : ic.gpu_machine_type_mapping.lookup ic.gpu_type = some mt) (hne : mt ≠ "") :
    resolveMachineType ic = mt := by
  simp [resolveMachineType, h, hne]

/-- Helper: a configuration whose machine_type already equals the mapped
value is a fixed point of the region loop: any successful run returns it
unchanged. -/
theorem createLoop_cfg_fixed (zl : List QuotaRecord) (mt : String) (regions : List String) :
    ∀ (total : Nat) (cfg : Config) (i ra : Nat) (cr : List CreatedInstance)
      (tr : List String) (zc : Option QuotaRecord)
      (out : List CreatedInstance × Config × List String),
    cfg.instance_config.gpu_machine_type_mapping.lookup cfg.instance_config.gpu_type =
      some mt →
    mt ≠ "" →
    cfg.instance_config.machine_type = mt →
    createLoop zl total regions cfg i ra cr tr zc = .ok out →
    out.2.1 = cfg := by
  induction regions with
  | nil =>
    intro total cfg i ra cr tr zc out _ _ _ hok
    simp only [createLoop] at hok
    cases hok
    rfl
  | cons r R ih =>
    intro total cfg i ra cr tr zc out hmap hne hmt hok
    simp only [createLoop] at hok
    rw [resolveMachineType_lookup cfg.instance_config mt hmap hne] at hok
    have hup : { cfg with instance_config :=
        { cfg.instance_config with machine_type := mt } } = cfg := by
      rw [← hmt]
    rw [hup] at hok
    cases htop : cfg.number_of_instances_top with
    | none =>
      rw [htop] at hok
      simp at hok
    | some n =>
      rw [htop] at hok
      simp only [] at hok
      split at hok
      · simp at hok
      · split at hok
        · simp only [Except.ok.injEq] at hok
          rw [← hok]
        · split at hok
          · simp only [Except.ok.injEq] at hok
            rw [← hok]
          · exact ih total cfg i (ra + 1) cr (tr ++ [r]) _ out hmap hne hmt hok

/-- Helper: a region loop entered with at least one region and a truthy
mapped machine type returns, on success, the configuration patched with
the mapped value and otherwise unchanged. -/
theorem createLoop_cons_patch (zl : List QuotaRecord) (mt : String) (r : String)
    (R : List String) (total : Nat) (cfg : Config) (i ra : Nat)
    (cr : List CreatedInstance) (tr : List String) (zc : Option QuotaRecord)
    (out : List CreatedInstance × Config × List String)
    (hmap : cfg.instance_config.gpu_machine_type_mapping.lookup
      cfg.instance_config.gpu_type = some mt)
    (hne : mt ≠ "")
    (hok : createLoop zl total (r :: R) cfg i ra cr tr zc = .ok out) :
    out.2.1 = patchMachineType cfg mt := by
  simp only [createLoop] at hok
  rw [resolveMachineType_lookup cfg.instance_config mt hmap hne] at hok
  rw [show { cfg with instance_config :=
      { cfg.instance_config with machine_type := mt } } = patchMachineType cfg mt
    from rfl] at hok
  cases htop : cfg.number_of_instances_top with
  | none =>
    rw [htop] at hok
    simp at hok
  | some n =>
    rw [htop] at hok
    simp only [] at hok
    split at hok
    · simp at hok
    · split at hok
      · simp only [Except.ok.injEq] at hok
        rw [← hok]
      · split at hok
        · simp only [Except.ok.injEq] at hok
          rw [← hok]
        · exact createLoop_cfg_fixed zl mt R total (patchMachineType cfg mt) i (ra + 1)
            cr (tr ++ [r]) _ out hmap hne rfl hok

/-- C10 counterexample: the claim fails when the mapping maps the
configured GPU type to the empty string, a configuration the claim
covers. The mapping contains the GPU type, the call succeeds, yet the
returned configuration is the input unchanged: its machine_type is
a2-highgpu-2g, not the mapped value, because the truthiness test of
line 137 sends an empty mapped value to the fallback branch. -/
theorem c10_config_mutation_counterexample :
    cfgEmptyMapped.instance_config.gpu_machine_type_mapping.lookup
      cfgEmptyMapped.instance_config.gpu_type = some "" ∧
    create_instance cfgEmptyMapped zlRoundTrip =
      .ok ([], cfgEmptyMapped, ["us-central1"]) ∧
    cfgEmptyMapped.instance_config.machine_type = "a2-highgpu-2g" := by
  decide

/-- C10 amended: the provisioning loop mutates the configuration of the
caller in place. Whenever the mapping holds a NON-EMPTY machine type for
the configured GPU type (the line 137 truthiness test) and the loop is
entered with at least one candidate zone, any successful call leaves the
configuration with its instance_config machine_type equal to the mapped
value and every other field unchanged (the result is exactly
patchMachineType of the input). -/
theorem c10_config_mutation (cfg : Config) (zone_list : List QuotaRecord) (mt : String)
    (out : List CreatedInstance × Config × List String)
    (hmap : cfg.instance_config.gpu_machine_type_mapping.lookup
      cfg.instance_config.gpu_type = some mt)
    (hne : mt ≠ "") (hzl : zone_list ≠ [])
    (hok : create_instance cfg zone_list = .ok out) :
    out.2.1.instance_config.machine_type = mt ∧ out.2.1 = patchMachineType cfg mt := by
  obtain ⟨q, rest, rfl⟩ : ∃ q rest, zone_list = q :: rest := by
    cases zone_list with
    | nil => exact absurd rfl hzl
    | cons q rest => exact ⟨q, rest, rfl⟩
  simp only [create_instance, List.map_cons, distinctFirst_cons] at hok
  have hpatch := createLoop_cons_patch _ mt _ _ _ cfg 0 0 [] [] none out hmap hne hok
  refine ⟨?_, hpatch⟩
  rw [hpatch]
  rfl

/-- C10 witness: with a mapping sending the configured GPU type to
a2-megagpu-16g, a successful run leaves exactly that machine type in the
configuration of the caller. -/
theorem c10_config_mutation_witness :
    (([] : List CreatedInstance), patchMachineType cfgMapped "a2-megagpu-16g",
        ["us-central1"]).2.1.instance_config.machine_type = "a2-megagpu-16g" ∧
    (([] : List CreatedInstance), patchMachineType cfgMapped "a2-megagpu-16g",
        ["us-central1"]).2.1 = patchMachineType cfgMapped "a2-megagpu-16g" :=
  c10_config_mutation cfgMapped zlRoundTrip "a2-megagpu-16g"
    ([], patchMachineType cfgMapped "a2-megagpu-16g", ["us-central1"])
    (by decide) (by decide) (by decide) (by decide)

/-- C4 counterexample: for the a2-family machine type a2-megagpu-16g,
whose name embeds a GPU count of 16, validation raises a ValueError even
when number_of_gpus is the matching 16: the extraction of line 32 assumes
a highgpu segment and slices the non-numeric string gpu-16, so the claim
that validation accepts every a2-family configuration with matching
counts is false. -/
theorem c4_gpu_check_counterexample :
    specEmbeddedGpuCount "a2-megagpu-16g" = some 16 ∧
    cfgMega16.instance_config.number_of_gpus = 16 ∧
    check_gpu_config cfgMega16 = .error .valueError := by
  decide

/-- Helper: on a machine type of the canonical shape a2-highgpu-(s)g
whose middle part parses as an integer, the validator compares that
integer against number_of_gpus. -/
theorem check_gpu_config_highgpu (cfg : Config) (s : List Char) (k : Int)
    (hmt : cfg.instance_config.machine_type.data = "a2-highgpu-".data ++ s ++ ['g'])
    (hint : pyInt s = some k) :
    check_gpu_config cfg =
      if cfg.instance_config.number_of_gpus ≠ k then
        .error (.exception "Please match the number of GPUs parameter with the correct machine type in the config file")
      else
        .ok () := by
  have hstart : pyStartsWith "a2".data ("a2-highgpu-".data ++ s ++ ['g']) = true := rfl
  have hfind : (pyFind "highgpu".data ("a2-highgpu-".data ++ s ++ ['g']) + 8).toNat = 11 :=
    rfl
  have h11 : ("a2-highgpu-".data).length = 11 := rfl
  have hlen : ("a2-highgpu-".data ++ s ++ ['g']).length - 1 =
      ("a2-highgpu-".data ++ s).length := by
    simp [List.length_append, h11]
  have hslice : pySlice ("a2-highgpu-".data ++ s ++ ['g']) 11
      (("a2-highgpu-".data ++ s ++ ['g']).length - 1) = s := by
    simp only [pySlice, hlen, List.take_left]
    rw [show (11 : Nat) = ("a2-highgpu-".data).length from rfl, List.drop_left]
  simp only [check_gpu_config, hmt, hstart, if_true]
  rw [hfind, hslice, hint]

/-- C4 amended: validation accepts every configuration whose machine type
does not start with a2; for a2 machine types of the canonical shape
a2-highgpu-(digits)g it raises the configuration error exactly when the
digits differ from number_of_gpus; and for a2 machine types whose
extracted middle substring (characters from find("highgpu")+8 up to the
next-to-last) is not an integer, as for a2-megagpu-16g, it raises a
ValueError regardless of number_of_gpus. -/
theorem c4_gpu_check_amended (cfg : Config) :
    (pyStartsWith "a2".data cfg.instance_config.machine_type.data = false →
      check_gpu_config cfg = .ok ()) ∧
    (∀ (s : List Char) (k : Int),
      cfg.instance_config.machine_type.data = "a2-highgpu-".data ++ s ++ ['g'] →
      pyInt s = some k →
      (check_gpu_config cfg = .ok () ↔ cfg.instance_config.number_of_gpus = k)) ∧
    (pyStartsWith "a2".data cfg.instance_config.machine_type.data = true →
      pyInt (pySlice cfg.instance_config.machine_type.data
        ((pyFind "highgpu".data cfg.instance_config.machine_type.data + 8).toNat)
        (cfg.instance_config.machine_type.data.length - 1)) = none →
      check_gpu_config cfg = .error .valueError) := by
  refine ⟨?_, ?_, ?_⟩
  · intro h
    simp [check_gpu_config, h]
  · intro s k hmt hint
    rw [check_gpu_config_highgpu cfg s k hmt hint]
    by_cases hg : cfg.instance_config.number_of_gpus = k
    · simp [hg]
    · simp [hg]
  · intro h1 h2
    simp only [check_gpu_config]
    split
    next =>
      rw [h2]
    next hfalse =>
      exact absurd h1 hfalse

/-- C4 witness: a2-highgpu-8g with number_of_gpus 8 is accepted. -/
theorem c4_gpu_check_witness :
    check_gpu_config cfgMatch8 = .ok () :=
  ((c4_gpu_check_amended cfgMatch8).2.1 "8".data 8 rfl (by decide)).mpr (by decide)

end GpuFinder
